import Mathlib

/-!
Shallow embedding of the DOM node structure and its operations from
src/servo/dom/node.rs, the layout auxiliary-data code from
src/servo/layout/aux.rs, and the selector callbacks from
src/servo/css/select_handler.rs. Nodes live in a heap addressed by natural
numbers; a `Store` maps each address to the `Node` record stored there.
Fallible operations (Rust `assert`/`fail!`) return `Except`, the error value
carrying the memory state at the abort.
-/

namespace Servo

/-- The `NodeTypeId` enum of src/servo/dom/node.rs. `ElementTypeId` is declared
in dom/element.rs, which is not among the repository's files; it is modelled
abstractly as a natural number. -/
inductive NodeTypeId where
  | DoctypeNodeTypeId : NodeTypeId
  | CommentNodeTypeId : NodeTypeId
  | ElementNodeTypeId : Nat → NodeTypeId
  | TextNodeTypeId : NodeTypeId
  deriving DecidableEq

/-- The `LayoutData` struct of src/servo/dom/node.rs: `style` and `flow` are
optional values of foreign types (`CompleteSelectResults`, `FlowContext`),
modelled abstractly as natural numbers. -/
structure LayoutData where
  style : Option Nat
  flow : Option Nat
  deriving DecidableEq

/-- `LayoutData::new` of src/servo/dom/node.rs: both fields start absent. -/
def LayoutData.new : LayoutData :=
  { style := none, flow := none }

/-- The `Node` struct of src/servo/dom/node.rs. The five relation fields hold
optional heap addresses of other nodes. The parent field is declared
`parent_node` in the struct but read and written as `parent` throughout the
file (the accessor, `append_child`) and by select_handler.rs; the embedding
uses the name the code uses. -/
structure Node where
  type_id : NodeTypeId
  parent : Option Nat
  first_child : Option Nat
  last_child : Option Nat
  next_sibling : Option Nat
  prev_sibling : Option Nat
  layout_data : Option LayoutData
  deriving DecidableEq

/-- `Node::new` of src/servo/dom/node.rs: all five relation fields and the
layout data start absent. -/
def Node.new (type_id : NodeTypeId) : Node :=
  { type_id := type_id
    parent := none
    first_child := none
    last_child := none
    next_sibling := none
    prev_sibling := none
    layout_data := none }

/-- The heap: every address holds a `Node`. -/
abbrev Store := Nat → Node

/-- Writing one node's fields in place, as a `&mut` borrow does. -/
def upd (s : Store) (i : Nat) (f : Node → Node) : Store :=
  fun j => if j = i then f (s j) else s j

/-- `AbstractNode::append_child` of src/servo/dom/node.rs, lines 159-181,
translated statement by statement. A failed `assert` aborts; the error value
is the store at the abort. The four asserts run before any field is written.
After `child_n.parent = self`, the code matches on `parent_n.last_child`:
when absent it sets `parent_n.first_child`, otherwise it asserts the old last
child has no `next_sibling` and links the new child after it; finally it sets
`child_n.prev_sibling` from `parent_n.last_child`. The source contains no
assignment to `parent_n.last_child`. -/
def append_child (s : Store) (self child : Nat) : Except Store Store :=
  if self = child then Except.error s
  else if (s child).parent ≠ none then Except.error s
  else if (s child).prev_sibling ≠ none then Except.error s
  else if (s child).next_sibling ≠ none then Except.error s
  else
    let s1 := upd s child fun n => { n with parent := some self }
    match (s1 self).last_child with
    | none =>
        let s2 := upd s1 self fun n => { n with first_child := some child }
        Except.ok (upd s2 child fun n => { n with prev_sibling := (s2 self).last_child })
    | some last_child =>
        if (s1 last_child).next_sibling ≠ none then Except.error s1
        else
          let s2 := upd s1 last_child fun n => { n with next_sibling := some child }
          Except.ok (upd s2 child fun n => { n with prev_sibling := (s2 self).last_child })

/-- A heap of freshly constructed nodes, as `Node::new` produces them. -/
def freshStore : Store :=
  fun _ => Node.new NodeTypeId.CommentNodeTypeId

/-- A heap where node 1 already has node 0 as its parent and everything else
is fresh. -/
def parentedStore : Store :=
  fun j =>
    if j = 1 then { Node.new NodeTypeId.CommentNodeTypeId with parent := some 0 }
    else Node.new NodeTypeId.CommentNodeTypeId

/-- The `Comment` struct of src/servo/dom/node.rs: a node plus its text. -/
structure Comment where
  parent : Node
  text : String

/-- `Comment::new` of src/servo/dom/node.rs: the embedded node is
`Node::new(CommentNodeTypeId)`. -/
def Comment.new (text : String) : Comment :=
  { parent := Node.new NodeTypeId.CommentNodeTypeId, text := text }

/-- The `Text` struct of src/servo/dom/node.rs: a node plus its text. -/
structure Text where
  parent : Node
  text : String

/-- `Text::new` of src/servo/dom/node.rs, lines 124-131: the embedded node is
`Node::new(CommentNodeTypeId)` in the source, not `TextNodeTypeId`. -/
def Text.new (text : String) : Text :=
  { parent := Node.new NodeTypeId.CommentNodeTypeId, text := text }

/-- `AbstractNode::is_text` of src/servo/dom/node.rs: the type tag equals
`TextNodeTypeId`. -/
def is_text (n : Node) : Bool :=
  decide (n.type_id = NodeTypeId.TextNodeTypeId)

/-- `AbstractNode::as_text` of src/servo/dom/node.rs: fails fatally unless
`is_text`; on success the same memory is reinterpreted as the `Text` view. -/
def as_text (n : Node) : Except Unit Node :=
  if is_text n then Except.ok n else Except.error ()

/-- `AbstractNode::is_element` of src/servo/dom/node.rs: the type tag matches
`ElementNodeTypeId(*)`. -/
def is_element (n : Node) : Bool :=
  match n.type_id with
  | NodeTypeId.ElementNodeTypeId _ => true
  | _ => false

/-- Modelled from the spec: the `Element` struct (dom/element.rs is not among
the repository's files) carries a `tag_name` string and a list of attributes,
each a name paired with a value. -/
structure ElementData where
  tag_name : String
  attrs : List (String × String)
  deriving DecidableEq

/-- Modelled from the spec: `Element::get_attr(name)` (dom/element.rs is not
among the repository's files) returns the value of the attribute named
`name`, if the element has one. -/
def ElementData.get_attr (e : ElementData) (name : String) : Option String :=
  (e.attrs.find? fun p => p.1 == name).map fun p => p.2

/-- A heap together with the element view of each address: `elems i` is the
element payload consulted only when the node at `i` has an element type tag
(in the source both views alias the same memory). -/
structure Ctx where
  nodes : Store
  elems : Nat → ElementData

/-- `with_node_name` of src/servo/css/select_handler.rs, lines 12-17: fails
fatally when the node is not an element, otherwise applies `f` to the
element's `tag_name`. -/
def with_node_name {R : Type} (c : Ctx) (i : Nat) (f : String → R) : Except Unit R :=
  if !is_element (c.nodes i) then Except.error ()
  else Except.ok (f (c.elems i).tag_name)

/-- `NodeSelectHandler::named_parent_node` of src/servo/css/select_handler.rs,
lines 24-37: on a present parent it runs `with_node_name` on that parent and
compares the requested name with the parent's tag name; on no parent it
returns the absent outcome. -/
def named_parent_node (c : Ctx) (i : Nat) (name : String) : Except Unit (Option Nat) :=
  match (c.nodes i).parent with
  | some parent =>
      with_node_name c parent fun node_name =>
        if name = node_name then some parent else none
  | none => Except.ok none

/-- `NodeSelectHandler::node_has_id` of src/servo/css/select_handler.rs,
lines 77-85: fails fatally when the node is not an element; otherwise looks
up the `id` attribute and compares it with the requested id, exactly. -/
def node_has_id (c : Ctx) (i : Nat) (id : String) : Except Unit Bool :=
  if !is_element (c.nodes i) then Except.error ()
  else
    Except.ok
      (match (c.elems i).get_attr "id" with
       | none => false
       | some existing_id => id == existing_id)

/-- A context whose node 1 has the non-element node 0 as parent; every
element payload carries the tag name "div". -/
def ctxNonElementParent : Ctx :=
  { nodes := parentedStore
    elems := fun _ => { tag_name := "div", attrs := [] } }

end Servo

namespace Servo

/-- C1: evaluating `append_child` at two fresh nodes (parent 0, child 1), the
call succeeds, the child's parent is set to 0 and the child becomes the
parent's first child, but the parent's `last_child` is still absent: the
source never assigns `parent_n.last_child`, so the claim that `A.last_child`
refers to `B` fails on the code. -/
theorem append_child_drops_last_child :
    (append_child freshStore 0 1).toOption.map
        (fun s => ((s 1).parent, (s 0).first_child, (s 0).last_child))
      = some (some 0, some 1, none) := by
  rfl

/-- C2: after one successful `append_child` of fresh node 1 under fresh node
0, node 0 has a present `first_child` and an absent `last_child`, breaking
the both-or-neither half of the shape invariant; appending a second fresh
child 2 then overwrites `first_child` with 2, leaving node 1 with parent 0
but unreachable from node 0's child chain. -/
theorem append_child_breaks_shape :
    ((append_child freshStore 0 1).toOption.map
        (fun s => ((s 0).first_child.isSome, (s 0).last_child.isSome))
      = some (true, false))
    ∧ (((append_child freshStore 0 1).toOption.bind
          (fun s => (append_child s 0 2).toOption)).map
        (fun s => ((s 0).first_child, (s 1).parent, (s 1).next_sibling, (s 2).prev_sibling))
      = some (some 2, some 0, none, none)) := by
  exact ⟨rfl, rfl⟩

/-- C7: `append_child` fails fatally, with the heap exactly as it was, when
the child is the parent itself or the child already has a parent, a previous
sibling or a next sibling: all four asserts run before any field is
written. -/
theorem append_child_fail_atomic (s : Store) (a b : Nat)
    (h : a = b ∨ (s b).parent ≠ none ∨ (s b).prev_sibling ≠ none
      ∨ (s b).next_sibling ≠ none) :
    append_child s a b = Except.error s := by
  unfold append_child
  split_ifs with h1 h2 h3 h4
  · rfl
  · rfl
  · rfl
  · rfl
  · rcases h with h | h | h | h
    · exact absurd h h1
    · exact absurd h h2
    · exact absurd h h3
    · exact absurd h h4

/-- C7 witness: node 1 of `parentedStore` already has a parent, and appending
it under node 0 fails with the heap unchanged. -/
theorem append_child_fail_atomic_w :
    ((parentedStore 1).parent ≠ none)
    ∧ append_child parentedStore 0 1 = Except.error parentedStore :=
  ⟨by decide, append_child_fail_atomic parentedStore 0 1 (Or.inr (Or.inl (by decide)))⟩

/-- C10: a node built by `Text::new` carries the `CommentNodeTypeId` type
tag, so `is_text` is false on it and `as_text` fails fatally, and its type
tag is the same as that of a node built by `Comment::new`. -/
theorem text_new_comment_tag (s t : String) :
    (Text.new s).parent.type_id = NodeTypeId.CommentNodeTypeId
    ∧ is_text (Text.new s).parent = false
    ∧ as_text (Text.new s).parent = Except.error ()
    ∧ (Text.new s).parent.type_id = (Comment.new t).parent.type_id := by
  exact ⟨rfl, rfl, rfl, rfl⟩

/-- Case analysis of `named_parent_node`: no parent gives the absent outcome;
an element parent gives the parent or the absent outcome by tag-name
comparison; a non-element parent aborts. -/
theorem named_parent_node_cases (c : Ctx) (i : Nat) (name : String) :
    named_parent_node c i name =
      match (c.nodes i).parent with
      | none => Except.ok none
      | some p =>
          if is_element (c.nodes p) then
            Except.ok (if name = (c.elems p).tag_name then some p else none)
          else Except.error () := by
  unfold named_parent_node with_node_name
  cases (c.nodes i).parent with
  | none => rfl
  | some p =>
      by_cases hp : is_element (c.nodes p)
      · simp [hp]
      · simp [hp]

/-- C8 counterexample: node 1's parent is node 0, a comment node; the claim
says `named_parent_node` returns the absent outcome when the parent is not an
element, but the code fails fatally there. -/
theorem named_parent_node_fails_on_nonelement_parent :
    named_parent_node ctxNonElementParent 1 "div" = Except.error ()
    ∧ (Except.error () : Except Unit (Option Nat)) ≠ Except.ok none :=
  ⟨rfl, fun h => Except.noConfusion h⟩

/-- C8 (amended): `named_parent_node` returns a parent node exactly when the
node has that parent, the parent is an element and its tag name equals the
requested name; it returns the absent outcome exactly when the node has no
parent or its parent is an element with a different tag name; and it fails
fatally exactly when the node has a parent that is not an element. -/
theorem named_parent_node_amended (c : Ctx) (i : Nat) (name : String) :
    (∀ p, named_parent_node c i name = Except.ok (some p) ↔
        (c.nodes i).parent = some p ∧ is_element (c.nodes p) = true
          ∧ (c.elems p).tag_name = name)
    ∧ (named_parent_node c i name = Except.ok none ↔
        (c.nodes i).parent = none
          ∨ ∃ p, (c.nodes i).parent = some p ∧ is_element (c.nodes p) = true
              ∧ (c.elems p).tag_name ≠ name)
    ∧ (named_parent_node c i name = Except.error () ↔
        ∃ p, (c.nodes i).parent = some p ∧ is_element (c.nodes p) = false) := by
  rw [named_parent_node_cases]
  cases hpar : (c.nodes i).parent with
  | none => simp
  | some q =>
      by_cases he : is_element (c.nodes q)
      · by_cases ht : name = (c.elems q).tag_name
        · refine ⟨fun p => ?_, ?_, ?_⟩
          · simp [he, ht]
            rintro rfl
            exact ⟨he, rfl⟩
          · simp [he, ht]
          · simp [he, ht]
        · refine ⟨fun p => ?_, ?_, ?_⟩
          · simp [he, ht]
            rintro rfl
            exact fun _ hx => ht hx.symm
          · simp [he, ht]
            exact fun hx => ht hx.symm
          · simp [he, ht]
      · refine ⟨fun p => ?_, ?_, ?_⟩
        · simp [he]
          rintro rfl
          exact fun h2 => absurd h2 he
        · simp [he]
        · simp [he]

/-- C9: `node_has_id` answers true exactly when the node is an element whose
`id` attribute is present and equals the requested string exactly; on an
element with no `id` attribute it answers false, on an element whose `id`
value differs from the requested string (for instance only in case) it
answers false, and on a non-element node it fails fatally. -/
theorem node_has_id_spec (c : Ctx) (i : Nat) (s : String) :
    (node_has_id c i s = Except.ok true ↔
        is_element (c.nodes i) = true ∧ (c.elems i).get_attr "id" = some s)
    ∧ (is_element (c.nodes i) = true → (c.elems i).get_attr "id" = none →
        node_has_id c i s = Except.ok false)
    ∧ (∀ v, is_element (c.nodes i) = true → (c.elems i).get_attr "id" = some v →
        v ≠ s → node_has_id c i s = Except.ok false)
    ∧ (is_element (c.nodes i) = false → node_has_id c i s = Except.error ()) := by
  unfold node_has_id
  by_cases he : is_element (c.nodes i)
  · cases hg : (c.elems i).get_attr "id" with
    | none => simp [he, hg]
    | some v =>
        refine ⟨?_, ?_, ?_, ?_⟩
        · simp [he, hg]
          constructor
          · intro hv
            exact hv.symm
          · intro hv
            exact hv.symm
        · simp [hg]
        · intro w _ hw hne
          cases hw
          simp [he]
          exact fun hx => hne hx.symm
        · simp [he]
  · simp [he]

end Servo
